import Mathlib

/-!
Verification of the video-games ETL pipeline (etl/extract.py, etl/transform.py,
etl/validate.py, etl/load.py, etl/main.py) against its specification.

The pandas `DataFrame` is shallowly embedded as a `Dataset`: an ordered list of
column names together with an ordered list of rows, each row a list of cell
values aligned positionally with the column list.  Cell values are embedded as
`Value`: an integer, an exact rational standing for a float (no claim here
depends on floating-point rounding), a string, or the null marker (pandas
NaN/None).  File-system state is embedded as the list of existing paths, and
the outcomes of external I/O (CSV reads, the credential store, the database
connection and the row count the sink reports) are explicit parameters, so every
function is total and executable.
-/

namespace ETL

/-- A cell value of a tabular dataset: pandas int64, float64 (embedded as an
exact rational), object/string, or the null marker (NaN/None). -/
inductive Value where
  | vInt (n : Int)
  | vFloat (q : Rat)
  | vStr (s : String)
  | vNull
  deriving DecidableEq, Repr

/-- A tabular dataset (pandas DataFrame): ordered column names plus ordered
rows whose cells align positionally with the column list. -/
structure Dataset where
  columns : List String
  rows : List (List Value)
  deriving DecidableEq, Repr

/-- Number of rows, pandas `len(df)`. -/
def Dataset.nrows (df : Dataset) : Nat := df.rows.length

/-- pandas `df.empty`: true when either axis has length zero. -/
def Dataset.isEmpty (df : Dataset) : Bool :=
  df.rows.length == 0 || df.columns.length == 0

/-- Whether a cell is the null marker. -/
def Value.isNull : Value → Bool
  | .vNull => true
  | _ => false

/-- pandas element-wise comparison `value < b` for an integer bound `b` on a
numeric column: null (NaN) compares false, as does a non-numeric cell. -/
def Value.ltInt (v : Value) (b : Int) : Bool :=
  match v with
  | .vInt n => n < b
  | .vFloat q => q < (b : Rat)
  | _ => false

/-- Column lookup `df[name]` for the first column labelled `name` (none when absent);
missing cells of a ragged row read as null. -/
def Dataset.col? (df : Dataset) (name : String) : Option (List Value) :=
  (df.columns.indexOf? name).map (fun i => df.rows.map (fun r => r.getD i .vNull))

/-! ## etl/validate.py -/

/-- The list `required_columns` of `validate_schema`. -/
def required_columns : List String :=
  ["year_of_release", "na_sales", "eu_sales", "jp_sales", "other_sales", "global_sales"]

/-- Schema check `validate_schema(df)`: false exactly when some required column is absent. -/
def validate_schema (df : Dataset) : Bool :=
  let missing := required_columns.filter (fun c => !(df.columns.contains c))
  if !missing.isEmpty then false else true

/-- The list `key_columns` of `validate_data_quality`. -/
def key_columns : List String := ["year_of_release", "global_sales"]

/-- The diagnostic counts `validate_data_quality` reports: per key column the
null count when positive, then the count of `year_of_release < 1950` rows and
of `global_sales < 0` rows when positive (a pandas filter keeps only non-null
cells satisfying the comparison, so `.count()` is the length of the filter result). -/
def qualityIssues (df : Dataset) : List Nat :=
  let nullIssues := key_columns.filterMap (fun c =>
    match df.col? c with
    | some vs =>
        let nc := (vs.filter Value.isNull).length
        if nc > 0 then some nc else none
    | none => none)
  let invalidYears : Nat :=
    match df.col? "year_of_release" with
    | some vs => (vs.filter (fun v => v.ltInt 1950)).length
    | none => 0
  let negativeSales : Nat :=
    match df.col? "global_sales" with
    | some vs => (vs.filter (fun v => v.ltInt 0)).length
    | none => 0
  nullIssues ++ (if invalidYears > 0 then [invalidYears] else [])
    ++ (if negativeSales > 0 then [negativeSales] else [])

/-- Quality check `validate_data_quality(df)`: computes and prints the issue list, then
`return True` unconditionally. -/
def validate_data_quality (df : Dataset) : Bool :=
  let _issues := qualityIssues df
  true

/-- The list `files_to_check` of `validate_output_files`. -/
def files_to_check : List String :=
  ["data/raw/raw_dataset.csv", "data/processed/transformed_dataset.csv",
   "data/processed/processed_data.parquet"]

/-- Artifact check `validate_output_files()` over the set `fs` of paths existing on the
file system. -/
def validate_output_files (fs : List String) : Bool :=
  let missing := files_to_check.filter (fun p => !(fs.contains p))
  if !missing.isEmpty then false else true

/-- Stage gate `comprehensive_validation(df, stage)`; `fs` is the file-system state
consulted only at the `output` stage. -/
def comprehensive_validation (fs : List String) (df : Dataset) (stage : String) : Bool :=
  if df.isEmpty then false
  else if (stage == "transformed" || stage == "output") && !validate_schema df then false
  else if !validate_data_quality df then false
  else if stage == "output" && !validate_output_files fs then false
  else true

/-! ## etl/extract.py -/

/-- The list `expected_columns` of `validate_raw_data` (raw, un-normalized names). -/
def expected_columns : List String :=
  ["Year_of_Release", "NA_Sales", "EU_Sales", "JP_Sales", "Other_Sales", "Global_Sales"]

/-- Raw check `validate_raw_data(file_path)`: `readOk` is whether `pd.read_csv`
succeeded (the `except` branch returns false), `df` the parsed file.  Missing
expected columns are computed only for the warning printout. -/
def validate_raw_data (readOk : Bool) (df : Dataset) : Bool :=
  if !readOk then false
  else if df.isEmpty then false
  else
    let _missing := expected_columns.filter (fun c => !(df.columns.contains c))
    true

/-! ## etl/transform.py -/

/-- ASCII whitespace as recognized by Python `str.strip()`. -/
def pyIsSpace (c : Char) : Bool :=
  c == ' ' || c == '\t' || c == '\n' || c == '\r' || c == '\x0b' || c == '\x0c'

/-- Python `str.strip()` on the character list: drop whitespace from both
ends. -/
def stripList (l : List Char) : List Char :=
  ((l.dropWhile pyIsSpace).reverse.dropWhile pyIsSpace).reverse

/-- Python `str.lower()` restricted to ASCII letters (column names here are
ASCII): map `A`–`Z` (code 65–90) to the letter 32 code points above. -/
def lowerChar (c : Char) : Char :=
  if 65 ≤ c.toNat ∧ c.toNat ≤ 90 then Char.ofNat (c.toNat + 32) else c

/-- Python `str.replace(' ', '_')`, per character. -/
def underscoreChar (c : Char) : Char :=
  if c = ' ' then '_' else c

/-- One pass of the column-name rewrite of `normalize_column_names`:
`col.strip().lower().replace(' ', '_')`. -/
def normalizeName (s : String) : String :=
  String.mk (((stripList s.data).map lowerChar).map underscoreChar)

/-- Name normalization `normalize_column_names(df)`: rewrite every column name, keep the rows. -/
def normalize_column_names (df : Dataset) : Dataset :=
  { df with columns := df.columns.map normalizeName }

/-- The list `numeric_columns` of `transform_data_types` (raw, un-normalized names). -/
def numeric_columns : List String :=
  ["Year_of_Release", "NA_Sales", "EU_Sales", "JP_Sales", "Other_Sales",
   "Global_Sales", "Critic_Score", "Critic_Count", "User_Score", "User_Count"]

/-- Numeric value of a list of decimal digits. -/
def digitsToNat (l : List Char) : Nat :=
  l.foldl (fun a c => a * 10 + (c.toNat - 48)) 0

/-- Parser model for the numeric parsing inside `pd.to_numeric`: an unsigned
decimal literal — digits, optionally with a fractional part, or a bare
fractional part.  Anything else (such as `N/A`) fails to parse. -/
def parseUnsigned (cs : List Char) : Option Rat :=
  let intPart := cs.takeWhile Char.isDigit
  let rest := cs.dropWhile Char.isDigit
  match rest with
  | [] => if intPart.isEmpty then none else some (digitsToNat intPart : Rat)
  | '.' :: frac =>
      if frac.all Char.isDigit && !(intPart.isEmpty && frac.isEmpty) then
        some ((digitsToNat intPart : Rat) + (digitsToNat frac : Rat) / ((10 : Rat) ^ frac.length))
      else none
  | _ => none

/-- Parser model for `pd.to_numeric` on a string cell: optional sign followed
by an unsigned decimal literal. -/
def parseNumeric (s : String) : Option Rat :=
  match s.data with
  | '-' :: rest => (parseUnsigned rest).map (fun q => -q)
  | '+' :: rest => parseUnsigned rest
  | l => parseUnsigned l

/-- Cell-level `pd.to_numeric` with `errors` set to `coerce`: numbers and nulls pass
through, a string becomes its parsed numeric value or the null marker. -/
def toNumericCoerce (v : Value) : Value :=
  match v with
  | .vInt n => .vInt n
  | .vFloat q => .vFloat q
  | .vNull => .vNull
  | .vStr s =>
      match parseNumeric s with
      | some q => .vFloat q
      | none => .vNull

/-- Truncation toward zero, the C-style cast `astype(int)` applies to a
float. -/
def ratTrunc (q : Rat) : Int :=
  if 0 ≤ q then ⌊q⌋ else ⌈q⌉

/-- The composite `Year_of_Release` treatment of `transform_data_types`:
`pd.to_numeric` with coercion, then `.fillna(0).astype(int)`, per cell — coerce,
replace null by 0, cast to integer. -/
def yearCoerce (v : Value) : Value :=
  match toNumericCoerce v with
  | .vInt n => .vInt n
  | .vFloat q => .vInt (ratTrunc q)
  | .vNull => .vInt 0
  | .vStr s => .vStr s

/-- Per-cell effect of `transform_data_types` as determined by the column
name of the cell: every column in `numeric_columns` is coerced, and
`Year_of_Release` additionally gets the fillna-and-cast treatment (coercing an
already-coerced cell changes nothing, so the composite per-cell map is
well defined whatever the loop order). -/
def transformCell (cname : String) (v : Value) : Value :=
  if cname == "Year_of_Release" then yearCoerce v
  else if numeric_columns.contains cname then toNumericCoerce v
  else v

/-- Type coercion `transform_data_types(df)`: apply the per-column-name cell map to every
cell; column names and row order are untouched. -/
def transform_data_types (df : Dataset) : Dataset :=
  { df with rows := df.rows.map (fun r => List.zipWith transformCell df.columns r) }

/-! ## etl/load.py -/

/-- One row of the `access` table of the credential store
(`SELECT url, port, user, pass`). -/
structure ConnParams where
  url : String
  port : Nat
  user : String
  pass : String
  deriving DecidableEq, Repr

/-- The value `DataLoader.get_connection_params` returns, as a Python value:
`None` (the `except` path), the empty dict `{}` (store reachable but the
query returned no rows), or a populated parameter dict. -/
inductive ConnResult where
  | pNone
  | emptyParams
  | params (p : ConnParams)
  deriving DecidableEq, Repr

/-- Python truthiness of a `get_connection_params` result: `None` and the
empty dict are falsy. -/
def ConnResult.truthy : ConnResult → Bool
  | .params _ => true
  | _ => false

/-- The local SQLite credential store: whether connecting and querying it
succeeds, and the rows of its `access` table. -/
structure CredStore where
  readOk : Bool
  rows : List ConnParams
  deriving DecidableEq, Repr

/-- Credential lookup `DataLoader.get_connection_params`: starts from `conn_params = {}`; on a
successful read the first row of a non-empty result becomes the dict while an
empty result leaves `{}`; any exception is caught and `None` is returned. -/
def get_connection_params (store : CredStore) : ConnResult :=
  if !store.readOk then ConnResult.pNone
  else
    match store.rows with
    | [] => ConnResult.emptyParams
    | p :: _ => ConnResult.params p

/-- Connection setup `DataLoader.setup_database_connection`: a falsy parameter result aborts
with `False`; otherwise the connection string is built and the engine probed
(`connectOk` is the probe outcome; its exception is caught and reported as
`False`). -/
def setup_database_connection (store : CredStore) (connectOk : Bool) : Bool :=
  let conn_params := get_connection_params store
  if !conn_params.truthy then false
  else connectOk

/-- pandas `df.head(n)` on the row list: the first `n` rows when `n ≥ 0`, all
but the last `-n` rows when `n` is negative. -/
def pandasHead (n : Int) (rows : List (List Value)) : List (List Value) :=
  if 0 ≤ n then rows.take n.toNat else rows.take (rows.length - (-n).toNat)

/-- Sink write `DataLoader.load_to_database`: requires an engine, truncates the dataset
with `data.head(max_rows)` and replace-writes it inside one transaction.
`writeOk` is the transaction outcome: on failure it rolls back and the sink
keeps its previous contents `sink0`.  Returns the success flag and the sink
table contents after the call. -/
def load_to_database (engineOk : Bool) (writeOk : Bool)
    (sink0 : Option (List (List Value))) (data : Dataset) (max_rows : Int) :
    Bool × Option (List (List Value)) :=
  if !engineOk then (false, sink0)
  else
    let data_limited := pandasHead max_rows data.rows
    if writeOk then (true, some data_limited) else (false, sink0)

/-- Columnar write `DataLoader.save_to_parquet`: writes the full, untruncated dataset to
`data/processed/<filename>`; a caught write error yields `None`.  Returns the
reported path and the file contents written. -/
def save_to_parquet (writeOk : Bool) (data : Dataset) (filename : String) :
    Option String × Option (List (List Value)) :=
  if writeOk then (some ("data/processed/" ++ filename), some data.rows)
  else (none, none)

/-- Sink verification `DataLoader.validate_output_data`: requires an engine and a readable sink
(`queryOk` is whether the count and sample queries in the `try` block succeed);
with a truthy `expected_rows` (neither `None` nor `0`) a differing actual
count returns `False`; otherwise `True`. -/
def validate_output_data (engineOk : Bool) (queryOk : Bool) (row_count : Nat)
    (expected_rows : Option Int) : Bool :=
  if !engineOk then false
  else if !queryOk then false
  else
    match expected_rows with
    | some n => if n != 0 && (row_count : Int) != n then false else true
    | none => true

/-- Environment of one `load_data` run: the outcomes of its external
interactions. -/
structure LoadEnv where
  store : CredStore
  connectOk : Bool
  writeOk : Bool
  parquetOk : Bool
  queryOk : Bool
  sinkCount : Nat
  sink0 : Option (List (List Value))
  deriving Repr

/-- Result of `load_data`: the returned flag, the sink table contents after
the run, and the parquet file contents. -/
structure LoadResult where
  success : Bool
  sinkRows : Option (List (List Value))
  parquetRows : Option (List (List Value))
  deriving Repr

/-- Load driver `load_data(transformed_file, table_name, max_rows)`: read the transformed
CSV into `data`, connect, replace-write `data.head(max_rows)`, write the full
parquet artifact, then verify the sink count against
`min(max_rows, len(data))`; each failing step short-circuits the rest. -/
def load_data (env : LoadEnv) (data : Dataset) (max_rows : Int) : LoadResult :=
  if !(setup_database_connection env.store env.connectOk) then
    ⟨false, env.sink0, none⟩
  else
    let step := load_to_database true env.writeOk env.sink0 data max_rows
    if !step.1 then ⟨false, step.2, none⟩
    else
      let parquet := save_to_parquet env.parquetOk data "processed_data.parquet"
      match parquet.1 with
      | none => ⟨false, step.2, parquet.2⟩
      | some _ =>
          if !(validate_output_data true env.queryOk env.sinkCount
              (some (min max_rows (data.rows.length : Int)))) then
            ⟨false, step.2, parquet.2⟩
          else ⟨true, step.2, parquet.2⟩

/-! ## etl/main.py -/

/-- Environment of one pipeline run: the outcomes of the external
interactions the driver sequences. -/
structure PipelineEnv where
  skipExtraction : Bool
  rawFileExists : Bool
  extractOk : Bool
  rawData : Dataset
  transformOk : Bool
  transformedData : Dataset
  fs : List String
  loadEnv : LoadEnv
  maxRows : Int
  deriving Repr

/-- Driver `run_etl_pipeline` as the process exit code (0 on a clean run, 1 from
`sys.exit(1)` or the `except` handler).  With `--skip-extraction` a missing
raw file raises; otherwise `extractOk` is whether `extract_data` ran without
raising (a download error, or `validate_raw_data` returning false, both
raise there).  The driver then calls `comprehensive_validation` on the raw
and on the transformed dataset but discards both boolean results — only an
exception or `load_data` returning `False` reaches `sys.exit(1)`. -/
def run_etl_pipeline (env : PipelineEnv) : Nat :=
  if env.skipExtraction && !env.rawFileExists then 1
  else if !env.skipExtraction && !env.extractOk then 1
  else
    let _rawCheck : Bool :=
      if !env.skipExtraction then comprehensive_validation env.fs env.rawData "raw" else true
    if !env.transformOk then 1
    else
      let _transformedCheck : Bool :=
        comprehensive_validation env.fs env.transformedData "transformed"
      if (load_data env.loadEnv env.transformedData env.maxRows).success then 0 else 1

/-- The head of a character list is not whitespace (vacuously for `[]`). -/
def headNotWs (m : List Char) : Prop :=
  ∀ a, m.head? = some a → pyIsSpace a = false

/-! ## Character-level lemmas for name normalization -/

theorem char_toNat_ofNat (n : Nat) (h : n.isValidChar) : (Char.ofNat n).toNat = n := by
  simp only [Char.ofNat, h, dif_pos]
  rfl

theorem lowerChar_idem (c : Char) : lowerChar (lowerChar c) = lowerChar c := by
  unfold lowerChar
  by_cases h : 65 ≤ c.toNat ∧ c.toNat ≤ 90
  · rw [if_pos h]
    have hv : (c.toNat + 32).isValidChar := by left; omega
    have ht : (Char.ofNat (c.toNat + 32)).toNat = c.toNat + 32 := char_toNat_ofNat _ hv
    rw [if_neg]
    omega
  · rw [if_neg h, if_neg h]

theorem pyIsSpace_false_of_gt (c : Char) (h : 32 < c.toNat) : pyIsSpace c = false := by
  unfold pyIsSpace
  simp only [Bool.or_eq_false_iff, beq_eq_false_iff_ne, ne_eq]
  refine ⟨⟨⟨⟨⟨?_, ?_⟩, ?_⟩, ?_⟩, ?_⟩, ?_⟩ <;> rintro rfl <;> revert h <;> decide

theorem lowerChar_not_space (c : Char) (h : pyIsSpace c = false) :
    pyIsSpace (lowerChar c) = false := by
  unfold lowerChar
  by_cases hc : 65 ≤ c.toNat ∧ c.toNat ≤ 90
  · rw [if_pos hc]
    apply pyIsSpace_false_of_gt
    have hv : (c.toNat + 32).isValidChar := by left; omega
    rw [char_toNat_ofNat _ hv]
    omega
  · rwa [if_neg hc]

theorem normChar_not_space (c : Char) (h : pyIsSpace c = false) :
    pyIsSpace (underscoreChar (lowerChar c)) = false := by
  have h1 : pyIsSpace (lowerChar c) = false := lowerChar_not_space c h
  unfold underscoreChar
  split
  · decide
  · exact h1

theorem normChar_idem (c : Char) :
    underscoreChar (lowerChar (underscoreChar (lowerChar c))) = underscoreChar (lowerChar c) := by
  by_cases h : lowerChar c = ' '
  · rw [h]; decide
  · have hu : underscoreChar (lowerChar c) = lowerChar c := by
      unfold underscoreChar; rw [if_neg h]
    rw [hu, lowerChar_idem, hu]

theorem headNotWs_dropWhile (l : List Char) : headNotWs (l.dropWhile pyIsSpace) := by
  intro a ha
  have h := List.head?_dropWhile_not pyIsSpace l
  rw [ha] at h
  exact h

theorem dropWhile_eq_self_of_headNotWs (m : List Char) (h : headNotWs m) :
    m.dropWhile pyIsSpace = m := by
  cases m with
  | nil => rfl
  | cons a t => simp [List.dropWhile_cons, h a rfl]

theorem headNotWs_map (g : Char → Char)
    (hg : ∀ c, pyIsSpace c = false → pyIsSpace (g c) = false)
    (m : List Char) (h : headNotWs m) : headNotWs (m.map g) := by
  intro a ha
  cases m with
  | nil => simp at ha
  | cons b t =>
      simp only [List.map_cons, List.head?_cons, Option.some.injEq] at ha
      rw [← ha]
      exact hg b (h b rfl)

theorem headNotWs_stripped_tail (t : List Char) (h : headNotWs t) :
    headNotWs ((t.reverse.dropWhile pyIsSpace).reverse) := by
  cases t with
  | nil => intro a ha; simp at ha
  | cons c t' =>
      have hc : pyIsSpace c = false := h c rfl
      have hrev : (c :: t').reverse = t'.reverse ++ [c] := by simp
      rw [hrev, List.dropWhile_append]
      split
      · intro a ha
        simp only [List.dropWhile_cons, hc, Bool.false_eq_true, if_false, List.dropWhile_nil,
          List.reverse_cons, List.reverse_nil, List.nil_append, List.head?_cons,
          Option.some.injEq] at ha
        rw [← ha]; exact hc
      · intro a ha
        rw [List.reverse_append] at ha
        simp only [List.reverse_cons, List.reverse_nil, List.nil_append, List.cons_append,
          List.head?_cons, Option.some.injEq] at ha
        rw [← ha]; exact hc

theorem strip_eq_self (m : List Char) (h1 : headNotWs m) (h2 : headNotWs m.reverse) :
    stripList m = m := by
  unfold stripList
  rw [dropWhile_eq_self_of_headNotWs m h1, dropWhile_eq_self_of_headNotWs m.reverse h2,
    List.reverse_reverse]

theorem headNotWs_strip (l : List Char) : headNotWs (stripList l) := by
  unfold stripList
  exact headNotWs_stripped_tail _ (headNotWs_dropWhile l)

theorem headNotWs_strip_reverse (l : List Char) : headNotWs (stripList l).reverse := by
  unfold stripList
  rw [List.reverse_reverse]
  exact headNotWs_dropWhile _

theorem normalizeName_idem (s : String) :
    normalizeName (normalizeName s) = normalizeName s := by
  unfold normalizeName
  have hdata : (String.mk (((stripList s.data).map lowerChar).map underscoreChar)).data
      = ((stripList s.data).map lowerChar).map underscoreChar := rfl
  rw [hdata]
  have hMg : ((stripList s.data).map lowerChar).map underscoreChar
      = (stripList s.data).map (fun c => underscoreChar (lowerChar c)) := by
    rw [List.map_map]; rfl
  rw [hMg]
  have h1 : headNotWs ((stripList s.data).map (fun c => underscoreChar (lowerChar c))) :=
    headNotWs_map _ normChar_not_space _ (headNotWs_strip s.data)
  have h2 : headNotWs ((stripList s.data).map (fun c => underscoreChar (lowerChar c))).reverse := by
    rw [← List.map_reverse]
    exact headNotWs_map _ normChar_not_space _ (headNotWs_strip_reverse s.data)
  rw [strip_eq_self _ h1 h2, List.map_map, List.map_map]
  exact congrArg String.mk (List.map_congr_left (fun c _ => normChar_idem c))

/-! ## Theorems: validator claims -/

/-- Claim C2: for every dataset `D` and every stage tag in
`{raw, transformed, output}`, if `D` is empty then
`comprehensive_validation D stage` returns false. -/
theorem comprehensive_validation_empty_false (fs : List String) (df : Dataset) (stage : String)
    (hstage : stage ∈ ["raw", "transformed", "output"]) (h : df.isEmpty = true) :
    comprehensive_validation fs df stage = false := by
  simp [comprehensive_validation, h]

/-- Witness for C2: the empty dataset at stage `raw`. -/
theorem comprehensive_validation_empty_false_witness :
    ("raw" ∈ ["raw", "transformed", "output"] ∧ (Dataset.mk [] []).isEmpty = true)
      ∧ comprehensive_validation [] (Dataset.mk [] []) "raw" = false :=
  ⟨⟨by simp, by decide⟩,
   comprehensive_validation_empty_false [] (Dataset.mk [] []) "raw" (by simp) (by decide)⟩

/-- Claim C3: a dataset missing one of the six normalized required columns
fails `validate_schema`, while `validate_data_quality` returns true for every
dataset (the schema/quality asymmetry). -/
theorem schema_quality_asymmetry (df : Dataset) (c : String)
    (hc : c ∈ required_columns) (hmiss : df.columns.contains c = false) :
    validate_schema df = false ∧ ∀ d : Dataset, validate_data_quality d = true := by
  refine ⟨?_, fun d => rfl⟩
  have hmem : c ∈ required_columns.filter (fun c => !(df.columns.contains c)) :=
    List.mem_filter.mpr ⟨hc, by simpa using hmiss⟩
  unfold validate_schema
  rcases h : required_columns.filter (fun c => !(df.columns.contains c)) with _ | ⟨a, l⟩
  · rw [h] at hmem; exact absurd hmem (List.not_mem_nil c)
  · simp

/-- Witness for C3: a dataset lacking `global_sales`. -/
theorem schema_quality_asymmetry_witness :
    ("global_sales" ∈ required_columns
        ∧ (Dataset.mk ["year_of_release"] [[Value.vInt 2000]]).columns.contains "global_sales"
            = false)
      ∧ validate_schema (Dataset.mk ["year_of_release"] [[Value.vInt 2000]]) = false
      ∧ ∀ d : Dataset, validate_data_quality d = true :=
  ⟨⟨by simp [required_columns], by decide⟩,
   schema_quality_asymmetry (Dataset.mk ["year_of_release"] [[Value.vInt 2000]]) "global_sales"
     (by simp [required_columns]) (by decide)⟩

/-- Claim C9: `validate_raw_data` never raises (it is a total function here):
it returns false on a read failure or an empty dataset, and true otherwise —
in particular missing expected columns never make it return false. -/
theorem validate_raw_data_spec (df : Dataset) :
    validate_raw_data false df = false
      ∧ (df.isEmpty = true → validate_raw_data true df = false)
      ∧ (df.isEmpty = false → validate_raw_data true df = true) := by
  refine ⟨rfl, fun h => ?_, fun h => ?_⟩ <;> simp [validate_raw_data, h]

/-- Witness for C9: a non-empty dataset missing every expected raw column
still validates. -/
theorem validate_raw_data_spec_witness :
    (Dataset.mk ["foo"] [[Value.vNull]]).isEmpty = false
      ∧ validate_raw_data true (Dataset.mk ["foo"] [[Value.vNull]]) = true :=
  ⟨by decide, (validate_raw_data_spec (Dataset.mk ["foo"] [[Value.vNull]])).2.2 (by decide)⟩

/-- Claim C10: for every non-empty dataset, `comprehensive_validation` at the
`raw` stage returns true — emptiness is the only gating check there, whatever
the columns and the file-system state. -/
theorem comprehensive_validation_raw_nonempty_true (fs : List String) (df : Dataset)
    (h : df.isEmpty = false) :
    comprehensive_validation fs df "raw" = true := by
  simp [comprehensive_validation, h, validate_data_quality]

/-- Witness for C10: a one-cell dataset with an arbitrary column name. -/
theorem comprehensive_validation_raw_nonempty_true_witness :
    (Dataset.mk ["x"] [[Value.vStr "hello"]]).isEmpty = false
      ∧ comprehensive_validation [] (Dataset.mk ["x"] [[Value.vStr "hello"]]) "raw" = true :=
  ⟨by decide,
   comprehensive_validation_raw_nonempty_true [] (Dataset.mk ["x"] [[Value.vStr "hello"]])
     (by decide)⟩

/-- Claim C4: `normalize_column_names` is idempotent — applying it twice
yields the same column-name list as applying it once (trim, lower-case,
underscore for spaces; a second application changes nothing). -/
theorem normalize_column_names_idem (df : Dataset) :
    (normalize_column_names (normalize_column_names df)).columns
      = (normalize_column_names df).columns := by
  show (df.columns.map normalizeName).map normalizeName = df.columns.map normalizeName
  rw [List.map_map]
  exact List.map_congr_left (fun s _ => normalizeName_idem s)

/-- Claim C6: after `transform_data_types`, an unparsable `Year_of_Release`
cell (such as `"N/A"`) is nulled and then defaulted to the integer 0; every
`Year_of_Release` cell ends up in integer representation; and in the other
numeric-semantic columns coercion never raises on non-numeric input — the bad
cell becomes the null marker. -/
theorem transform_year_coercion (df : Dataset) (i j : Nat) (r : List Value) (s : String)
    (hrow : df.rows[j]? = some r) (hcol : df.columns[i]? = some "Year_of_Release")
    (hcell : r[i]? = some (Value.vStr s)) (hbad : parseNumeric s = none) :
    ((transform_data_types df).rows[j]?.bind (fun r2 => r2[i]?)) = some (Value.vInt 0)
      ∧ (∀ v : Value, ∃ n : Int, transformCell "Year_of_Release" v = Value.vInt n)
      ∧ (∀ cname : String, ∀ s2 : String, cname ∈ numeric_columns →
          cname ≠ "Year_of_Release" → parseNumeric s2 = none →
          transformCell cname (Value.vStr s2) = Value.vNull) := by
  refine ⟨?_, ?_, ?_⟩
  · show ((df.rows.map (fun r => List.zipWith transformCell df.columns r))[j]?.bind
        (fun r2 => r2[i]?)) = some (Value.vInt 0)
    rw [List.getElem?_map, hrow]
    simp only [Option.map_some', Option.some_bind]
    rw [List.getElem?_zipWith, hcol, hcell]
    simp only [transformCell, beq_self_eq_true, if_true, yearCoerce, toNumericCoerce, hbad]
  · intro v
    cases v with
    | vInt n => exact ⟨n, rfl⟩
    | vFloat q => exact ⟨ratTrunc q, rfl⟩
    | vNull => exact ⟨0, rfl⟩
    | vStr s2 =>
        rcases hp : parseNumeric s2 with _ | q
        · exact ⟨0, by simp [transformCell, yearCoerce, toNumericCoerce, hp]⟩
        · exact ⟨ratTrunc q, by simp [transformCell, yearCoerce, toNumericCoerce, hp]⟩
  · intro cname s2 hmem hne hp
    have hbeq : (cname == "Year_of_Release") = false := beq_eq_false_iff_ne.mpr hne
    have hcont : numeric_columns.contains cname = true := List.elem_eq_true_of_mem hmem
    simp only [transformCell, hbeq, Bool.false_eq_true, if_false, hcont, if_true,
      toNumericCoerce, hp]

/-- Witness for C6: a two-column dataset whose `Year_of_Release` cell is
`"N/A"`. -/
theorem transform_year_coercion_witness :
    (parseNumeric "N/A" = none
        ∧ (Dataset.mk ["Name", "Year_of_Release"]
            [[Value.vStr "A", Value.vStr "N/A"]]).rows[0]?
          = some [Value.vStr "A", Value.vStr "N/A"])
      ∧ ((transform_data_types
            (Dataset.mk ["Name", "Year_of_Release"]
              [[Value.vStr "A", Value.vStr "N/A"]])).rows[0]?.bind (fun r2 => r2[1]?))
          = some (Value.vInt 0) :=
  ⟨⟨by decide, rfl⟩,
   (transform_year_coercion
      (Dataset.mk ["Name", "Year_of_Release"] [[Value.vStr "A", Value.vStr "N/A"]])
      1 0 [Value.vStr "A", Value.vStr "N/A"] "N/A" rfl rfl rfl (by decide)).1⟩

/-- Claim C5: for every dataset and non-negative bound, the sink write
(`load_to_database`) writes exactly the first `min(maxRows, len(D))` rows in
order — a prefix of the row list — while `save_to_parquet` in the same load
run persists all rows untruncated. -/
theorem sink_head_parquet_full (sink0 : Option (List (List Value))) (data : Dataset)
    (max_rows : Int) (fname : String) (h : 0 ≤ max_rows) :
    (load_to_database true true sink0 data max_rows).2
        = some (data.rows.take max_rows.toNat)
      ∧ (data.rows.take max_rows.toNat).length = min max_rows.toNat data.rows.length
      ∧ List.IsPrefix (data.rows.take max_rows.toNat) data.rows
      ∧ (save_to_parquet true data fname).2 = some data.rows := by
  refine ⟨?_, List.length_take _ _, List.take_prefix _ _, rfl⟩
  simp [load_to_database, pandasHead, h]

/-- Witness for C5: five rows, bound 3 — the sink sees rows 1–3, the parquet
file all five. -/
theorem sink_head_parquet_full_witness :
    (0 : Int) ≤ 3
      ∧ ((load_to_database true true none
            (Dataset.mk ["x"]
              [[Value.vInt 1], [Value.vInt 2], [Value.vInt 3], [Value.vInt 4], [Value.vInt 5]])
            3).2
          = some [[Value.vInt 1], [Value.vInt 2], [Value.vInt 3]]
        ∧ [[Value.vInt 1], [Value.vInt 2], [Value.vInt 3]].length = min (3 : Int).toNat 5
        ∧ List.IsPrefix [[Value.vInt 1], [Value.vInt 2], [Value.vInt 3]]
            [[Value.vInt 1], [Value.vInt 2], [Value.vInt 3], [Value.vInt 4], [Value.vInt 5]]
        ∧ (save_to_parquet true
            (Dataset.mk ["x"]
              [[Value.vInt 1], [Value.vInt 2], [Value.vInt 3], [Value.vInt 4], [Value.vInt 5]])
            "processed_data.parquet").2
          = some [[Value.vInt 1], [Value.vInt 2], [Value.vInt 3], [Value.vInt 4], [Value.vInt 5]]) :=
  ⟨by decide,
   sink_head_parquet_full none
     (Dataset.mk ["x"]
       [[Value.vInt 1], [Value.vInt 2], [Value.vInt 3], [Value.vInt 4], [Value.vInt 5]])
     3 "processed_data.parquet" (by decide)⟩

/-- Counterexample to claim C7 as stated: with expected count 0 (which is
falsy in `if expected_rows and row_count != expected_rows`) a sink reporting
5 rows passes verification, and a whole `load_data` run over an empty
dataset succeeds despite the mismatching sink count. -/
theorem validate_output_data_zero_expected_cex :
    validate_output_data true true 5 (some 0) = true
      ∧ (5 : Int) ≠ (0 : Int)
      ∧ (load_data
          (LoadEnv.mk (CredStore.mk true [ConnParams.mk "h" 1 "u" "p"]) true true true true 5 none)
          (Dataset.mk ["year_of_release"] []) 100).success = true := by
  refine ⟨rfl, by decide, rfl⟩

/-- Claim C7 (amended): the sink verification uses expected row count
`min(maxRows, len(data))`, and for every *non-zero* expected count a sink
whose actual count differs makes `validate_output_data` return false and
`load_data` report failure, while the sink keeps the rows the run wrote (no
rollback).  When the expected count is 0 the check is skipped, 0 being falsy. -/
theorem load_verification_mismatch (env : LoadEnv) (data : Dataset) (max_rows : Int)
    (hconn : setup_database_connection env.store env.connectOk = true)
    (hw : env.writeOk = true) (hp : env.parquetOk = true) (hq : env.queryOk = true)
    (hexp : min max_rows (data.rows.length : Int) ≠ 0)
    (hmm : (env.sinkCount : Int) ≠ min max_rows (data.rows.length : Int)) :
    validate_output_data true env.queryOk env.sinkCount
        (some (min max_rows (data.rows.length : Int))) = false
      ∧ (load_data env data max_rows).success = false
      ∧ (load_data env data max_rows).sinkRows = some (pandasHead max_rows data.rows) := by
  have hval : validate_output_data true env.queryOk env.sinkCount
      (some (min max_rows (data.rows.length : Int))) = false := by
    simp only [validate_output_data, hq, Bool.not_true, Bool.false_eq_true, if_false]
    rw [if_pos]
    simp only [Bool.and_eq_true, bne_iff_ne, ne_eq]
    exact ⟨hexp, hmm⟩
  refine ⟨hval, ?_, ?_⟩ <;>
    simp [load_data, hconn, hw, hp, hval, load_to_database, save_to_parquet]

/-- Witness for C7: 50 transformed rows, `maxRows = 100`, expected count 50,
sink reporting 49 — verification fails, the load reports failure, the 50
written rows stay. -/
theorem load_verification_mismatch_witness :
    (setup_database_connection
          (CredStore.mk true [ConnParams.mk "h" 1 "u" "p"]) true = true
        ∧ min (100 : Int) ((List.replicate 50 [Value.vInt 7]).length : Int) ≠ 0
        ∧ ((49 : Nat) : Int) ≠ min (100 : Int) ((List.replicate 50 [Value.vInt 7]).length : Int))
      ∧ (load_data
          (LoadEnv.mk (CredStore.mk true [ConnParams.mk "h" 1 "u" "p"]) true true true true 49 none)
          (Dataset.mk ["global_sales"] (List.replicate 50 [Value.vInt 7])) 100).success = false
      ∧ (load_data
          (LoadEnv.mk (CredStore.mk true [ConnParams.mk "h" 1 "u" "p"]) true true true true 49 none)
          (Dataset.mk ["global_sales"] (List.replicate 50 [Value.vInt 7])) 100).sinkRows
        = some (pandasHead 100 (List.replicate 50 [Value.vInt 7])) :=
  ⟨⟨by decide, by decide, by decide⟩,
   ((load_verification_mismatch
      (LoadEnv.mk (CredStore.mk true [ConnParams.mk "h" 1 "u" "p"]) true true true true 49 none)
      (Dataset.mk ["global_sales"] (List.replicate 50 [Value.vInt 7])) 100
      (by decide) rfl rfl rfl (by decide) (by decide)).2.1),
   ((load_verification_mismatch
      (LoadEnv.mk (CredStore.mk true [ConnParams.mk "h" 1 "u" "p"]) true true true true 49 none)
      (Dataset.mk ["global_sales"] (List.replicate 50 [Value.vInt 7])) 100
      (by decide) rfl rfl rfl (by decide) (by decide)).2.2)⟩

/-- Counterexample to claim C8 as stated: on a reachable but empty credential
store, `get_connection_params` returns the empty dict, not `None`. -/
theorem get_connection_params_empty_cex :
    get_connection_params (CredStore.mk true []) = ConnResult.emptyParams
      ∧ ConnResult.emptyParams ≠ ConnResult.pNone := by
  exact ⟨rfl, by decide⟩

/-- Claim C8 (amended): `get_connection_params` never raises; it returns
`None` when the store is unreachable and the empty dict when the store is
empty — both falsy, so the caller `setup_database_connection` aborts the load
stage gracefully in either case. -/
theorem get_connection_params_falsy (store : CredStore) (connectOk : Bool) :
    (store.readOk = false → get_connection_params store = ConnResult.pNone)
      ∧ (store.readOk = true → store.rows = [] →
          get_connection_params store = ConnResult.emptyParams)
      ∧ ((get_connection_params store).truthy = false →
          setup_database_connection store connectOk = false) := by
  refine ⟨fun h => ?_, fun h hr => ?_, fun h => ?_⟩
  · simp [get_connection_params, h]
  · simp [get_connection_params, h, hr]
  · simp [setup_database_connection, h]

/-- Witness for C8: the reachable empty store — falsy result, graceful abort. -/
theorem get_connection_params_falsy_witness :
    ((CredStore.mk true []).readOk = true ∧ (CredStore.mk true []).rows = [])
      ∧ get_connection_params (CredStore.mk true []) = ConnResult.emptyParams
      ∧ setup_database_connection (CredStore.mk true []) true = false :=
  ⟨⟨rfl, rfl⟩,
   (get_connection_params_falsy (CredStore.mk true []) true).2.1 rfl rfl,
   (get_connection_params_falsy (CredStore.mk true []) true).2.2 (by decide)⟩

/-- Claim C1, evaluated at a failing input: a run whose transformed dataset
is empty — `comprehensive_validation` returns false at the transformed
stage — still exits with code 0 when `load_data` succeeds (and over an empty
dataset the sink verification is skipped, so `load_data` does succeed): the
driver discards the validation results instead of aborting. -/
theorem pipeline_ignores_failed_validation :
    comprehensive_validation [] (Dataset.mk ["year_of_release"] []) "transformed" = false
      ∧ run_etl_pipeline
          (PipelineEnv.mk false true true (Dataset.mk ["year_of_release"] [[Value.vInt 2000]])
            true (Dataset.mk ["year_of_release"] []) []
            (LoadEnv.mk (CredStore.mk true [ConnParams.mk "h" 1 "u" "p"]) true true true true 0 none)
            100) = 0 := by
  exact ⟨rfl, rfl⟩

end ETL
